import Mathlib

/-!
Verification development for the Algo-Medecine repository.

The repository's algorithmic core (src/core/algo_verite.py,
src/core/pyramid_analysis.py, src/core/medical_predictions.py) is embedded
shallowly below:

* Python `int` values become `ℤ` (or `ℕ` for counts), Python `float`
  arithmetic becomes exact `ℚ` arithmetic (all constants of the source are
  decimal literals, exact in `ℚ`),
* Python lists become `List`, dicts with a fixed key set become structures,
  dicts used as string-keyed tables become lookup functions returning
  `Option`,
* raising an exception becomes returning `Except.error` with the
  exception's kind in the message,
* the `while len(current) > 1` reduction loops are written with an explicit
  fuel argument initialised to the list length (each pass shortens the list
  by one, so that fuel always suffices; the level-length lemmas below make
  this exact), keeping every definition executable by kernel reduction,
* `numpy.std` (the only irrational operation reached by a claim) is taken
  as an explicit function parameter of the one definition that mentions it;
  the claim about that definition holds for every choice of the parameter,
* wall-clock timestamp fields and presentation-only string fields
  (report text, care-plan prose) are omitted: no claim mentions them.
-/

namespace AlgoMedecine

/-! ## Pyramid construction

Source: `AlgoVerite._construire_pyramide` (src/core/algo_verite.py lines
59-82); the identical loops appear as `PyramidAnalyzer._build_pyramid`
(src/core/pyramid_analysis.py lines 53-75) and
`AlgoVeriteMedical._construire_pyramide_sante`
(src/core/medical_predictions.py lines 323-349). -/

/-- One ascending reduction step: `[current[i] + current[i+1] for i in range(len(current)-1)]`. -/
def niveau_suivant_somme : List ℤ → List ℤ
  | a :: b :: reste => (a + b) :: niveau_suivant_somme (b :: reste)
  | _ => []

/-- One descending reduction step: `[abs(current[i] - current[i+1]) for i in range(len(current)-1)]`. -/
def niveau_suivant_diff : List ℤ → List ℤ
  | a :: b :: reste => |a - b| :: niveau_suivant_diff (b :: reste)
  | _ => []

/-- The `while len(current) > 1` loop building `pyramide['superieure']`:
each new level is inserted at position 0, so the recursion appends the
freshly built level after the levels built from it. Fuel starts at the
sequence length, which the length lemmas below show is always enough. -/
def construire_superieure : ℕ → List ℤ → List (List ℤ)
  | 0, _ => []
  | fuel + 1, courant =>
    if courant.length > 1 then
      let suivant := niveau_suivant_somme courant
      construire_superieure fuel suivant ++ [suivant]
    else []

/-- The `while len(current) > 1` loop building `pyramide['inferieure']`:
each new level is appended. -/
def construire_inferieure : ℕ → List ℤ → List (List ℤ)
  | 0, _ => []
  | fuel + 1, courant =>
    if courant.length > 1 then
      let suivant := niveau_suivant_diff courant
      suivant :: construire_inferieure fuel suivant
    else []

/-- The pyramid dict `{'base': ..., 'superieure': ..., 'inferieure': ...}`
(named `upper`/`lower` in pyramid_analysis.py). -/
structure Pyramide where
  base : List ℤ
  superieure : List (List ℤ)
  inferieure : List (List ℤ)
  deriving DecidableEq

/-- `_construire_pyramide` / `_build_pyramid` / the pyramid half of
`_construire_pyramide_sante`. -/
def construire_pyramide (sequence : List ℤ) : Pyramide :=
  { base := sequence
    superieure := construire_superieure sequence.length sequence
    inferieure := construire_inferieure sequence.length sequence }

/-- The list `[k, k-1, ..., 1]`: the expected level lengths of the
descending branch of a pyramid over a base of length `k+1`. -/
def comptes_decroissants : ℕ → List ℕ
  | 0 => []
  | k + 1 => (k + 1) :: comptes_decroissants k

/-- The list `[1, 2, ..., k]`: the expected stored level lengths of the
ascending branch (index 0 is the apex level). -/
def comptes_croissants : ℕ → List ℕ
  | 0 => []
  | k + 1 => comptes_croissants k ++ [k + 1]

/-! ## SHA-256

`algo_verite.py` computes its signatures with `hashlib.sha256(...).hexdigest()`.
The standard algorithm (FIPS 180-4) is embedded below over byte lists, with
32-bit words as `ℕ` reduced mod `2^32`. None of the claims needs a digest to
be evaluated (the signature theorems only use that the digest is a function
of its input), but the definition is the real, executable hash. -/

namespace SHA256

/-- 2 to the 32nd: the modulus of 32-bit word arithmetic. -/
def M32 : ℕ := 4294967296

/-- Right rotation of a 32-bit word. -/
def rotr (n x : ℕ) : ℕ := (x >>> n) ||| ((x <<< (32 - n)) % M32)

def ch (x y z : ℕ) : ℕ := (x &&& y) ^^^ ((x ^^^ 4294967295) &&& z)

def maj (x y z : ℕ) : ℕ := (x &&& y) ^^^ (x &&& z) ^^^ (y &&& z)

def bigSigma0 (x : ℕ) : ℕ := rotr 2 x ^^^ rotr 13 x ^^^ rotr 22 x

def bigSigma1 (x : ℕ) : ℕ := rotr 6 x ^^^ rotr 11 x ^^^ rotr 25 x

def smallSigma0 (x : ℕ) : ℕ := rotr 7 x ^^^ rotr 18 x ^^^ (x >>> 3)

def smallSigma1 (x : ℕ) : ℕ := rotr 17 x ^^^ rotr 19 x ^^^ (x >>> 10)

/-- The 64 round constants (decimal). -/
def K : List ℕ :=
  [1116352408, 1899447441, 3049323471, 3921009573, 961987163,
   1508970993, 2453635748, 2870763221, 3624381080, 310598401,
   607225278, 1426881987, 1925078388, 2162078206, 2614888103,
   3248222580, 3835390401, 4022224774, 264347078, 604807628,
   770255983, 1249150122, 1555081692, 1996064986, 2554220882,
   2821834349, 2952996808, 3210313671, 3336571891, 3584528711,
   113926993, 338241895, 666307205, 773529912, 1294757372,
   1396182291, 1695183700, 1986661051, 2177026350, 2456956037,
   2730485921, 2820302411, 3259730800, 3345764771, 3516065817,
   3600352804, 4094571909, 275423344, 430227734, 506948616,
   659060556, 883997877, 958139571, 1322822218, 1537002063,
   1747873779, 1955562222, 2024104815, 2227730452, 2361852424,
   2428436474, 2756734187, 3204031479, 3329325298]

/-- The initial hash value (decimal). -/
def H0 : List ℕ :=
  [1779033703, 3144134277, 1013904242, 2773480762,
   1359893119, 2600822924, 528734635, 1541459225]

/-- Padding: append 0x80, zeros to 56 mod 64 bytes, then the bit length as
8 big-endian bytes. -/
def padding (msg : List ℕ) : List ℕ :=
  let L := msg.length
  let k := (56 + 64 - ((L + 1) % 64)) % 64
  let lenBits := 8 * L
  msg ++ [128] ++ List.replicate k 0 ++
    (List.range 8).map (fun i => (lenBits >>> (8 * (7 - i))) % 256)

/-- Big-endian bytes to 32-bit words. -/
def mots4 : List ℕ → List ℕ
  | a :: b :: c :: d :: reste => (((a * 256 + b) * 256 + c) * 256 + d) :: mots4 reste
  | _ => []

/-- Split a word list into 16-word blocks (fuel: the list length suffices). -/
def blocs : ℕ → List ℕ → List (List ℕ)
  | 0, _ => []
  | _, [] => []
  | fuel + 1, w :: ws => ((w :: ws).take 16) :: blocs fuel ((w :: ws).drop 16)

/-- Message-schedule extension: run 48 times to grow 16 words to 64. -/
def etendre : ℕ → List ℕ → List ℕ
  | 0, w => w
  | fuel + 1, w =>
    let t := (smallSigma1 (w.getD (w.length - 2) 0) + w.getD (w.length - 7) 0 +
      smallSigma0 (w.getD (w.length - 15) 0) + w.getD (w.length - 16) 0) % M32
    etendre fuel (w ++ [t])

/-- One compression round. -/
def tour (etat : ℕ × ℕ × ℕ × ℕ × ℕ × ℕ × ℕ × ℕ) (kw : ℕ × ℕ) :
    ℕ × ℕ × ℕ × ℕ × ℕ × ℕ × ℕ × ℕ :=
  let (a, b, c, d, e, f, g, h) := etat
  let (k, w) := kw
  let t1 := (h + bigSigma1 e + ch e f g + k + w) % M32
  let t2 := (bigSigma0 a + maj a b c) % M32
  ((t1 + t2) % M32, a, b, c, (d + t1) % M32, e, f, g)

/-- Compress one 16-word block into the running hash. -/
def comprimer (H : List ℕ) (bloc : List ℕ) : List ℕ :=
  let w := etendre 48 bloc
  let init := (H.getD 0 0, H.getD 1 0, H.getD 2 0, H.getD 3 0,
    H.getD 4 0, H.getD 5 0, H.getD 6 0, H.getD 7 0)
  let fin := (K.zip w).foldl tour init
  [(H.getD 0 0 + fin.1) % M32, (H.getD 1 0 + fin.2.1) % M32,
   (H.getD 2 0 + fin.2.2.1) % M32, (H.getD 3 0 + fin.2.2.2.1) % M32,
   (H.getD 4 0 + fin.2.2.2.2.1) % M32, (H.getD 5 0 + fin.2.2.2.2.2.1) % M32,
   (H.getD 6 0 + fin.2.2.2.2.2.2.1) % M32, (H.getD 7 0 + fin.2.2.2.2.2.2.2) % M32]

/-- Lowercase hex character of a nibble. -/
def hexChar (n : ℕ) : Char := if n < 10 then Char.ofNat (48 + n) else Char.ofNat (87 + n)

/-- Eight lowercase hex characters of a 32-bit word. -/
def motHex (x : ℕ) : String :=
  String.mk ((List.range 8).map fun i => hexChar ((x >>> (28 - 4 * i)) % 16))

/-- Hex digest of a byte list: the `hexdigest()` of `hashlib.sha256`. -/
def digestHex (octets : List ℕ) : String :=
  let ws := mots4 (padding octets)
  let hFin := (blocs ws.length ws).foldl comprimer H0
  String.join (hFin.map motHex)

end SHA256

/-- UTF-8 bytes of a string: Python `str.encode()`. -/
def str_octets (s : String) : List ℕ := s.toUTF8.toList.map (fun b => b.toNat)

/-- `hashlib.sha256(s.encode()).hexdigest()`. -/
def sha256_hexdigest (s : String) : String := SHA256.digestHex (str_octets s)

/-! ## AlgoVerite: signatures, state, integrity verification
(src/core/algo_verite.py) -/

/-- `_calculer_symetrie` (algo_verite.py lines 108-119). Note: unlike the
metric of pyramid_analysis.py, this one returns 0.0 when either branch is
empty and its `max` has no third argument 1. -/
def calculer_symetrie (p : Pyramide) : ℚ :=
  if p.superieure = [] ∨ p.inferieure = [] then 0
  else if p.superieure.length = 0 ∨ p.inferieure.length = 0 then 0
  else 1 - |(p.superieure.length : ℚ) - (p.inferieure.length : ℚ)| /
    max (p.superieure.length : ℚ) (p.inferieure.length : ℚ)

/-- `_calculer_ratio_harmonie` (lines 121-128). -/
def calculer_ratio_harmonie (sommet base : ℤ) : ℚ :=
  if base = 0 then 0
  else 1 - |((min sommet base : ℤ) : ℚ) / ((max sommet base : ℤ) : ℚ) - 0.618|

/-- The signatures dict of `_calculer_signatures` (lines 84-106). -/
structure Signatures where
  signature_racine : String
  sommet_pyramidal : ℤ
  base_fondamentale : ℤ
  hash_convergence : String
  niveaux_total : ℕ
  symetrie_score : ℚ
  ratio_harmonie : ℚ
  deriving DecidableEq

/-- `_calculer_signatures` (lines 84-106). `pyramide['base'][0]` is read
with default 0: with the empty base it would be a Python IndexError, but
`analyser_sequence` rejects the empty sequence before ever calling this. -/
def calculer_signatures (p : Pyramide) (nom : String) : Signatures :=
  let sommet := match p.superieure with
    | [] => p.base.headD 0
    | niveau :: _ => niveau.headD 0
  let base_f := match p.inferieure.getLast? with
    | none => p.base.headD 0
    | some niveau => niveau.headD 0
  let data_crypto := nom ++ String.join ((p.superieure.flatten).map (fun x => toString x))
  let hash_verite := sha256_hexdigest data_crypto
  let convergence_data := toString sommet ++ ":" ++ toString base_f ++ ":" ++
    toString (p.base.headD 0) ++ ":" ++ toString (p.base.getLastD 0)
  { signature_racine := "VERITE-" ++ hash_verite.take 16
    sommet_pyramidal := sommet
    base_fondamentale := base_f
    hash_convergence := (sha256_hexdigest convergence_data).take 16
    niveaux_total := p.superieure.length + p.inferieure.length + 1
    symetrie_score := calculer_symetrie p
    ratio_harmonie := calculer_ratio_harmonie sommet base_f }

/-- The analysis dict built and archived by `analyser_sequence` (lines
38-49). The wall-clock `timestamp`, the prose `interpretation` and the
`preuves_integrite` fields are omitted: no claim mentions them. -/
structure AnalyseResultat where
  nom : String
  sequence_originale : List ℤ
  pyramide : Pyramide
  signatures : Signatures
  deriving DecidableEq

/-- Insert-or-replace into a Python dict, handled as an association list
(CPython keeps the insertion position of an existing key). -/
def dict_insert (k : String) (v : α) : List (String × α) → List (String × α)
  | [] => [(k, v)]
  | (k2, v2) :: reste => if k2 = k then (k, v) :: reste else (k2, v2) :: dict_insert k v reste

/-- Dict lookup. -/
def dict_get? (k : String) : List (String × α) → Option α
  | [] => none
  | (k2, v2) :: reste => if k2 = k then some v2 else dict_get? k reste

/-- The mutable state of an `AlgoVerite` instance: `self.archives_analyses`.
The append-only operation log `self.historique_operations` is omitted: no
claim mentions it. -/
structure EtatVerite where
  archives_analyses : List (String × AnalyseResultat)
  deriving DecidableEq

/-- `analyser_sequence` (lines 23-57): rejects the empty sequence, builds
the pyramid and signatures, archives the result under `nom` and returns it. -/
def analyser_sequence (etat : EtatVerite) (sequence : List ℤ) (nom : String) :
    Except String (EtatVerite × AnalyseResultat) :=
  if sequence = [] then .error "ValueError: La séquence ne peut pas être vide"
  else
    let pyramide := construire_pyramide sequence
    let signatures := calculer_signatures pyramide nom
    let resultat : AnalyseResultat := ⟨nom, sequence, pyramide, signatures⟩
    .ok ({ archives_analyses := dict_insert nom resultat etat.archives_analyses }, resultat)

/-- The comparison record returned by `verifier_integrite` (timestamp
omitted). -/
structure VerificationResultat where
  statut : String
  nom : String
  signature_originale : String
  signature_actuelle : String
  confiance : ℚ
  deriving DecidableEq

/-- Outcome of `verifier_integrite`: the NOT-FOUND dict carries only a
statut and a message; the other outcomes carry the comparison record. -/
inductive VerifResultat where
  | non_trouve
  | verdict (v : VerificationResultat)
  deriving DecidableEq

/-- The `statut` field of either outcome dict. -/
def VerifResultat.statut : VerifResultat → String
  | non_trouve => "NON_TROUVE"
  | verdict v => v.statut

/-- `verifier_integrite` (lines 269-300): replays `analyser_sequence` on
the archived original sequence (which, note, re-archives the fresh result)
and compares root signatures. -/
def verifier_integrite (etat : EtatVerite) (nom : String) :
    Except String (EtatVerite × VerifResultat) :=
  match dict_get? nom etat.archives_analyses with
  | none => .ok (etat, .non_trouve)
  | some analyse_originale =>
    match analyser_sequence etat analyse_originale.sequence_originale nom with
    | .error e => .error e
    | .ok (etat2, nouvelle_analyse) =>
      let integrite := analyse_originale.signatures.signature_racine ==
        nouvelle_analyse.signatures.signature_racine
      .ok (etat2, .verdict {
        statut := if integrite then "INTÈGRE" else "CORROMPU"
        nom := nom
        signature_originale := analyse_originale.signatures.signature_racine
        signature_actuelle := nouvelle_analyse.signatures.signature_racine
        confiance := if integrite then 1 else 0 })

/-! ## PyramidAnalyzer metrics (src/core/pyramid_analysis.py) -/

/-- Exact mean of an integer list (`np.mean`). -/
def list_mean (l : List ℤ) : ℚ := (l.sum : ℚ) / (l.length : ℚ)

/-- The symmetry line of `_calculate_pyramid_metrics` (pyramid_analysis.py
line 88): `1.0 - abs(upper_height - lower_height) / max(upper_height,
lower_height, 1)`. -/
def symmetry_score (p : Pyramide) : ℚ :=
  1 - |(p.superieure.length : ℚ) - (p.inferieure.length : ℚ)| /
    max (max (p.superieure.length : ℚ) (p.inferieure.length : ℚ)) 1

/-- The convergence line (line 91): `lower_height / base_len if base_len > 0 else 0`. -/
def convergence_speed (p : Pyramide) : ℚ :=
  if p.base.length > 0 then (p.inferieure.length : ℚ) / (p.base.length : ℚ) else 0

/-- `_calculate_stability` (pyramid_analysis.py lines 105-116). `np.std` is
a floating-point square root, the one irrational operation in the file, so
it is taken as an explicit parameter `np_std`; claim C9 is proved for every
choice of that parameter, which is exactly the statement that the
coefficient-of-variation branch is never reached. -/
def calculate_stability (np_std : List ℤ → ℚ) (p : Pyramide) : ℚ :=
  if p.inferieure = [] then 1
  else
    let final_level := p.inferieure.getLastD []
    if final_level.length = 1 then 1
    else
      let variation := np_std final_level /
        (if list_mean final_level ≠ 0 then list_mean final_level else 1)
      max 0 (1 - variation)

/-! ## AlgoVeriteMedical (src/core/medical_predictions.py) -/

/-- The `EtatSante` enum (medical_predictions.py lines 7-16): each case
carries a numeric score and a label. -/
inductive EtatSante where
  | CRITIQUE
  | GRAVE
  | MODERE
  | STABLE
  | EXCELLENT
  deriving DecidableEq

/-- The score attached to each `EtatSante` case. -/
def EtatSante.score : EtatSante → ℚ
  | CRITIQUE => 0.1
  | GRAVE => 0.3
  | MODERE => 0.6
  | STABLE => 0.8
  | EXCELLENT => 0.95

/-- The label attached to each `EtatSante` case. -/
def EtatSante.label : EtatSante → String
  | CRITIQUE => "CRITIQUE"
  | GRAVE => "GRAVE"
  | MODERE => "MODÉRÉ"
  | STABLE => "STABLE"
  | EXCELLENT => "EXCELLENT"

/-- A pathology record of `pathologies_reference` (lines 33-64). -/
structure PathologieRef where
  severite_base : ℚ
  duree_moyenne : ℤ
  resilience : ℚ
  symptomes_typiques : List String
  deriving DecidableEq

/-- The pathology reference table (lines 33-64), keyed by uppercase name. -/
def pathologies_reference : String → Option PathologieRef := fun nom =>
  if nom = "GRIPPE" then some ⟨0.4, 7, 0.8, ["FIÈVRE", "TOUX", "FATIGUE", "DOULEURS_MUSCULAIRES"]⟩
  else if nom = "COVID" then some ⟨0.7, 14, 0.6, ["FIÈVRE", "TOUX", "DYSPNÉE", "ANOSMIE", "FATIGUE"]⟩
  else if nom = "BRONCHITE" then some ⟨0.5, 10, 0.7, ["TOUX", "EXPECTORATION", "DYSPNÉE"]⟩
  else if nom = "PNEUMONIE" then some ⟨0.8, 21, 0.5, ["FIÈVRE_ÉLEVÉE", "TOUX_GRASSE", "DOULEUR_THORACIQUE", "DYSPNÉE"]⟩
  else if nom = "MIGRAINE" then some ⟨0.3, 2, 0.9, ["CEPHALÉE", "PHOTOPHOBIE", "NAUSÉE"]⟩
  else none

/-- A treatment record of `traitements_reference` (lines 65-102). The
`nom` field models a possible `'nom'` key of the Python dict: the table's
dict literals carry no such key (`nom := none`), and
`_evaluer_adequation_symptomes` reads `traitement['nom']`, which is a
KeyError when the key is absent. -/
structure TraitementRef where
  nom : Option String
  efficacite : ℚ
  delai_action : ℤ
  compatibilite : ℚ
  pathologies : List String
  deriving DecidableEq

/-- The treatment reference table (lines 65-102). -/
def traitements_reference : String → Option TraitementRef := fun nomT =>
  if nomT = "ANTIVIRAL" then some ⟨none, 0.7, 2, 0.8, ["GRIPPE", "COVID"]⟩
  else if nomT = "ANTIBIOTIQUE" then some ⟨none, 0.8, 3, 0.7, ["BRONCHITE", "PNEUMONIE"]⟩
  else if nomT = "ANTIINFLAMMATOIRE" then some ⟨none, 0.6, 1, 0.9, ["GRIPPE", "COVID", "BRONCHITE", "PNEUMONIE"]⟩
  else if nomT = "IMMUNOSTIMULANT" then some ⟨none, 0.5, 5, 0.95, ["GRIPPE", "COVID"]⟩
  else if nomT = "ANALGESIQUE" then some ⟨none, 0.4, 1, 0.85, ["MIGRAINE", "GRIPPE"]⟩
  else if nomT = "BRONCHODILATATEUR" then some ⟨none, 0.7, 2, 0.8, ["BRONCHITE", "PNEUMONIE"]⟩
  else none

/-- The call-site default `{'efficacite': 0.5, 'delai_action': 5,
'compatibilite': 0.5}` (lines 503-505): three keys only — in particular no
`'nom'` key; the `pathologies` field stands in as the empty list (never
read on this record). -/
def traitement_defaut : TraitementRef := ⟨none, 0.5, 5, 0.5, []⟩

/-- A profile record of `profils_patients` (lines 103-128). -/
structure ProfilRef where
  resilience : ℚ
  reponse_traitement : ℚ
  recuperation : ℚ
  age_min : ℕ
  age_max : ℕ
  deriving DecidableEq

/-- The patient-profile reference table (lines 103-128). -/
def profils_patients : String → Option ProfilRef := fun nom =>
  if nom = "JEUNE" then some ⟨0.9, 0.8, 0.85, 0, 25⟩
  else if nom = "ADULTE" then some ⟨0.7, 0.7, 0.7, 26, 60⟩
  else if nom = "SENIOR" then some ⟨0.5, 0.6, 0.5, 61, 120⟩
  else if nom = "IMMUNODEPRIME" then some ⟨0.3, 0.4, 0.3, 0, 120⟩
  else none

/-- The call-site default `{'resilience': 0.7, 'reponse_traitement': 0.7,
'recuperation': 0.7}` (used at lines 302-305, 537-540, 679-682); the age
bounds stand in as 0 (never read on this record). -/
def profil_defaut : ProfilRef := ⟨0.7, 0.7, 0.7, 0, 0⟩

/-- A protocol of `protocoles_traitements` (lines 131-169). -/
structure Protocole where
  pathologies : List String
  traitements : List String
  duree_moyenne : ℤ
  efficacite_attendue : ℚ
  conditions : List String
  deriving DecidableEq

/-- `_initialiser_protocoles` (lines 131-169), in dict insertion order:
the iteration order of `for protocole_nom, protocole in
self.protocoles_traitements.items()`. -/
def protocoles_traitements : List (String × Protocole) :=
  [("PROTOCOLE_STANDARD_GRIPPE",
    ⟨["GRIPPE"], ["ANTIVIRAL", "ANTIINFLAMMATOIRE"], 7, 0.75,
     ["FIÈVRE < 39°C", "AUCUNE_DETRESSE_RESPIRATOIRE"]⟩),
   ("PROTOCOLE_INTENSIF_COVID",
    ⟨["COVID"], ["ANTIVIRAL", "ANTIINFLAMMATOIRE", "IMMUNOSTIMULANT"], 14, 0.65,
     ["TOUS_LES_CAS_CONFIRMÉS"]⟩),
   ("PROTOCOLE_BRONCHITE",
    ⟨["BRONCHITE"], ["ANTIBIOTIQUE", "BRONCHODILATATEUR"], 10, 0.80,
     ["EXPECTORATION_PURULENTE"]⟩),
   ("PROTOCOLE_PNEUMONIE",
    ⟨["PNEUMONIE"], ["ANTIBIOTIQUE", "ANTIINFLAMMATOIRE", "BRONCHODILATATEUR"], 21, 0.70,
     ["CONFIRMATION_RADIOGRAPHIQUE"]⟩),
   ("PROTOCOLE_MIGRAINE",
    ⟨["MIGRAINE"], ["ANALGESIQUE"], 2, 0.85, ["CEPHALÉE_SANS_COMPLICATIONS"]⟩)]

/-- The patient `profil` sub-dict: every key may be absent (`.get` with
defaults 40 / 0 / 0.7 at the read sites). -/
structure Profil where
  age : Option ℕ
  comorbidities : Option ℕ
  immunity_level : Option ℚ
  deriving DecidableEq

/-- The patient input dict: keys may be absent. -/
structure PatientData where
  id : Option String
  pathologie : Option String
  symptomes : Option (List String)
  profil : Option Profil
  deriving DecidableEq

/-- `patient_data.get('profil', {}).get('age', 40)`. -/
def age_de (profil : Option Profil) : ℕ := (profil.bind (fun pr => pr.age)).getD 40

/-- `...get('comorbidities', 0)`. -/
def comorbidities_de (profil : Option Profil) : ℕ :=
  (profil.bind (fun pr => pr.comorbidities)).getD 0

/-- `...get('immunity_level', 0.7)`. -/
def immunity_de (profil : Option Profil) : ℚ :=
  (profil.bind (fun pr => pr.immunity_level)).getD 0.7

/-- Python `str.upper()`. Lean's `String.toUpper` maps `Char.toUpper` over
the characters but is written with a position loop that the kernel cannot
unfold; this definition maps over the character list instead, so concrete
values reduce. (`Char.toUpper` uppercases ASCII letters only; every key it
is compared against in this file is ASCII.) -/
def maj_ascii (s : String) : String := ⟨s.data.map Char.toUpper⟩

/-- `_valider_donnees_patient` (lines 220-228): the required keys are
checked in order, then the uppercased pathology code against the pathology
reference table. (Python `str.upper()` and `String.toUpper` agree here:
the table keys and the compared inputs are ASCII.) -/
def valider_donnees_patient (patient : PatientData) : Except String Unit :=
  if patient.pathologie = none then .error "ValueError: Champ requis manquant: pathologie"
  else if patient.symptomes = none then .error "ValueError: Champ requis manquant: symptomes"
  else if patient.profil = none then .error "ValueError: Champ requis manquant: profil"
  else if pathologies_reference (maj_ascii (patient.pathologie.getD "")) = none then
    .error ("ValueError: Pathologie non reconnue: " ++ patient.pathologie.getD "")
  else .ok ()

/-- `_estimer_gravite_symptome` (lines 271-281): `gravites.get(symptome.upper(), 0.3)`. -/
def estimer_gravite_symptome (symptome : String) : ℚ :=
  let g := maj_ascii symptome
  if g = "FIÈVRE_LEGERE" then 0.3
  else if g = "FIÈVRE" then 0.5
  else if g = "FIÈVRE_ÉLEVÉE" then 0.8
  else if g = "TOUX" then 0.3
  else if g = "TOUX_GRASSE" then 0.4
  else if g = "TOUX_SÈCHE" then 0.3
  else if g = "DYSPNÉE" then 0.7
  else if g = "DYSPNÉE_SEVERE" then 0.9
  else if g = "DOULEURS_MUSCULAIRES" then 0.3
  else if g = "CEPHALÉE" then 0.4
  else if g = "FATIGUE" then 0.3
  else if g = "ANOSMIE" then 0.2
  else if g = "NAUSÉE" then 0.4
  else 0.3

/-- Python `int(q)`: truncation toward zero. -/
def py_int (q : ℚ) : ℤ := if q ≥ 0 then ⌊q⌋ else ⌈q⌉

/-- `_coder_symptomes` (lines 257-269): `int(gravite * 100)` per symptom,
`[0]` for the empty list. -/
def coder_symptomes (symptomes : List String) : List ℤ :=
  if symptomes = [] then [0]
  else symptomes.map (fun s => py_int (estimer_gravite_symptome s * 100))

/-- `_coder_pathologie` (lines 283-294); the lookup default dict at lines
286-288 is `{'severite_base': 0.5, 'duree_moyenne': 10, 'resilience': 0.5}`
(the `symptomes_typiques` field stands in as [], never read there). -/
def coder_pathologie (pathologie : String) : List ℤ :=
  let patho_ref := (pathologies_reference (maj_ascii pathologie)).getD ⟨0.5, 10, 0.5, []⟩
  [py_int (patho_ref.severite_base * 100), patho_ref.duree_moyenne,
   py_int (patho_ref.resilience * 100)]

/-- `_determiner_groupe_age` (lines 314-321). -/
def determiner_groupe_age (age : ℕ) : String :=
  if age ≤ 25 then "JEUNE" else if age ≤ 60 then "ADULTE" else "SENIOR"

/-- `_coder_profil_patient` (lines 296-312). -/
def coder_profil_patient (profil : Option Profil) : List ℤ :=
  let age_group := determiner_groupe_age (age_de profil)
  let profil_ref := (profils_patients age_group).getD profil_defaut
  [py_int (profil_ref.resilience * 100), py_int (profil_ref.reponse_traitement * 100),
   py_int (immunity_de profil * 100), min ((comorbidities_de profil : ℤ) * 20) 100]

/-- `_construire_pyramide_sante` (lines 323-349): the base is
`symptomes + pathologie + profil`, then the two reduction loops of
`construire_pyramide`. -/
def construire_pyramide_sante (symptomes pathologie profil : List ℤ) : Pyramide :=
  construire_pyramide (symptomes ++ pathologie ++ profil)

/-- `_calculer_gravite` (lines 351-368). -/
def calculer_gravite (symptomes pathologie : List ℤ) (patient : PatientData) : ℚ :=
  if symptomes = [] ∨ pathologie = [] then 0.5
  else
    let severite_symptomes := if symptomes ≠ [] then
        (symptomes.sum : ℚ) / ((symptomes.length : ℚ) * 100) else 0
    let severite_pathologie := if pathologie ≠ [] then
        ((pathologie.headD 0 : ℤ) : ℚ) / 100 else 0.5
    let comorbidities_factor := min ((comorbidities_de patient.profil : ℚ) * 0.1) 0.3
    let score_base := (severite_symptomes + severite_pathologie) / 2
    let score_final := min (score_base + comorbidities_factor) 1
    max 0 score_final

/-- `_evaluer_potentiel_retablissement` (lines 370-387). The divisions are
reachable only with a nonzero divisor (the risk base is replaced by 1 when
0, and the base length is ≥ 2 whenever both branches are nonempty); `ℚ`
division by zero would give 0. -/
def evaluer_potentiel_retablissement (p : Pyramide) : ℚ :=
  if p.superieure = [] ∨ p.inferieure = [] then 0.5
  else
    let sommet := match p.superieure with
      | [] => 0
      | niveau :: _ => niveau.headD 0
    let base_risque0 := match p.inferieure.getLast? with
      | none => 1
      | some niveau => niveau.headD 0
    let base_risque := if base_risque0 = 0 then 1 else base_risque0
    let harmonie := 1 -
      min (|(sommet : ℚ) - (base_risque : ℚ)| / max (sommet : ℚ) (base_risque : ℚ)) 1
    let stabilite := 1 - (p.inferieure.length : ℚ) / ((p.base.length : ℚ) * 2)
    max 0 (min ((harmonie + stabilite) / 2) 1)

/-- `_calculer_resilience` (lines 389-402). -/
def calculer_resilience (profil : List ℤ) (p : Pyramide) (patient : PatientData) : ℚ :=
  let resilience_base := if profil ≠ [] then ((profil.headD 0 : ℤ) : ℚ) / 100 else 0.5
  let symetrie := 1 - |(p.superieure.length : ℚ) - (p.inferieure.length : ℚ)| /
    max (max (p.superieure.length : ℚ) (p.inferieure.length : ℚ)) 1
  let immunite := immunity_de patient.profil
  let resilience_calculee := resilience_base * 0.4 + symetrie * 0.3 + immunite * 0.3
  max 0 (min resilience_calculee 1)

/-- `_evaluer_harmonie_biologique` (lines 404-423). -/
def evaluer_harmonie_biologique (p : Pyramide) : ℚ :=
  if p.superieure = [] ∨ p.inferieure = [] then 0.5
  else
    let valeurs_sup := p.superieure.flatten
    let valeurs_inf := p.inferieure.flatten
    if valeurs_sup = [] ∨ valeurs_inf = [] then 0.5
    else
      let moyenne_sup := list_mean valeurs_sup
      let moyenne_inf := list_mean valeurs_inf
      if moyenne_sup = 0 ∨ moyenne_inf = 0 then 0.5
      else
        let harmonie := 1 - |moyenne_sup - moyenne_inf| / max moyenne_sup moyenne_inf
        max 0 (min harmonie 1)

/-- `_determiner_etat_sante` (lines 425-451): recomputes gravity and
resilience from the raw patient data, then classifies the adjusted score. -/
def determiner_etat_sante (p : Pyramide) (patient : PatientData) : EtatSante :=
  let score_gravite := calculer_gravite (coder_symptomes (patient.symptomes.getD []))
    (coder_pathologie (patient.pathologie.getD "")) patient
  let resilience := calculer_resilience (coder_profil_patient patient.profil) p patient
  let score_ajuste := score_gravite * (1 - resilience * 0.3)
  if score_ajuste ≥ 0.8 then .CRITIQUE
  else if score_ajuste ≥ 0.6 then .GRAVE
  else if score_ajuste ≥ 0.4 then .MODERE
  else if score_ajuste ≥ 0.2 then .STABLE
  else .EXCELLENT

/-- `_identifier_facteurs_aggravants` (lines 453-473). -/
def identifier_facteurs_aggravants (patient : PatientData) : List String :=
  let profil := patient.profil
  let symptomes := patient.symptomes.getD []
  (if comorbidities_de profil ≥ 3 then ["Multiples comorbidités"] else []) ++
  (if age_de profil ≥ 65 then ["Âge avancé"] else []) ++
  (if immunity_de profil ≤ 0.4 then ["Immunodépression"] else []) ++
  (if symptomes.contains "DYSPNÉE_SEVERE" then ["Détresse respiratoire sévère"] else []) ++
  (if symptomes.contains "FIÈVRE_ÉLEVÉE" then ["Fièvre élevée persistante"] else [])

/-- `_identifier_indicateurs_favorables` (lines 475-488). -/
def identifier_indicateurs_favorables (p : Pyramide) : List String :=
  (if evaluer_harmonie_biologique p > 0.8 then ["Harmonie biologique élevée"] else []) ++
  (if evaluer_potentiel_retablissement p > 0.7 then ["Potentiel de rétablissement élevé"] else []) ++
  (if p.inferieure.length ≤ 3 then ["Convergence rapide vers la stabilité"] else [])

/-- The dict returned by `_analyser_condition_patient` (lines 235-255). -/
structure AnalyseSante where
  pyramide_sante : Pyramide
  score_gravite : ℚ
  potentiel_retablissement : ℚ
  resilience_patient : ℚ
  harmonie_biologique : ℚ
  etat_sante : EtatSante
  facteurs_aggravants : List String
  indicateurs_favorables : List String
  deriving DecidableEq

/-- `_analyser_condition_patient` (lines 235-255). -/
def analyser_condition_patient (patient : PatientData) : AnalyseSante :=
  let symptomes_codes := coder_symptomes (patient.symptomes.getD [])
  let pathologie_codes := coder_pathologie (patient.pathologie.getD "")
  let profil_codes := coder_profil_patient patient.profil
  let pyramide_sante := construire_pyramide_sante symptomes_codes pathologie_codes profil_codes
  { pyramide_sante := pyramide_sante
    score_gravite := calculer_gravite symptomes_codes pathologie_codes patient
    potentiel_retablissement := evaluer_potentiel_retablissement pyramide_sante
    resilience_patient := calculer_resilience profil_codes pyramide_sante patient
    harmonie_biologique := evaluer_harmonie_biologique pyramide_sante
    etat_sante := determiner_etat_sante pyramide_sante patient
    facteurs_aggravants := identifier_facteurs_aggravants patient
    indicateurs_favorables := identifier_indicateurs_favorables pyramide_sante }

/-- The target-symptom map `cibles_traitement` (lines 564-571), with
`.get(..., [])` as the fallback. -/
def cibles_traitement (nomT : String) : List String :=
  if nomT = "ANTIVIRAL" then ["FIÈVRE", "FATIGUE"]
  else if nomT = "ANTIBIOTIQUE" then ["FIÈVRE_ÉLEVÉE", "EXPECTORATION_PURULENTE"]
  else if nomT = "ANTIINFLAMMATOIRE" then ["DOULEURS_MUSCULAIRES", "CEPHALÉE", "FIÈVRE"]
  else if nomT = "IMMUNOSTIMULANT" then ["FATIGUE"]
  else if nomT = "ANALGESIQUE" then ["CEPHALÉE", "DOULEURS_MUSCULAIRES"]
  else if nomT = "BRONCHODILATATEUR" then ["DYSPNÉE", "TOUX"]
  else []

/-- `_evaluer_adequation_symptomes` (lines 561-578). The function reads
`traitement['nom']` (line 573): a KeyError when the dict carries no such
key — which is true of every record `_calculer_compatibilite_traitement`
ever hands it. With a name, the count is
`sum(1 for symptome in symptomes if symptome in symptomes_cibles)` divided
by `len(symptomes_cibles)`, capped at 1 (0.5 with no mapped targets). -/
def evaluer_adequation_symptomes (traitement : TraitementRef) (symptomes : List String) :
    Except String ℚ :=
  match traitement.nom with
  | none => .error "KeyError: nom"
  | some nomT =>
    let symptomes_cibles := cibles_traitement nomT
    if symptomes_cibles = [] then .ok 0.5
    else .ok (min ((symptomes.countP (fun s => symptomes_cibles.contains s) : ℚ) /
      (symptomes_cibles.length : ℚ)) 1)

/-- `_calculer_compatibilite_traitement` (lines 534-559): the mean of the
four factors (`traitement.get('compatibilite', 0.5)` always finds the key
on the records handed in: table entries and the call-site default both
carry it). -/
def calculer_compatibilite_traitement (traitement : TraitementRef) (profil : Option Profil)
    (analyse_sante : AnalyseSante) (symptomes : List String) : Except String ℚ := do
  let age_group := determiner_groupe_age (age_de profil)
  let profil_ref := (profils_patients age_group).getD profil_defaut
  let resilience_ratio := min (analyse_sante.resilience_patient / traitement.compatibilite) 1
  let adequation_symptomes ← evaluer_adequation_symptomes traitement symptomes
  pure ((profil_ref.reponse_traitement + analyse_sante.harmonie_biologique +
    resilience_ratio + adequation_symptomes) / 4)

/-- A treatment candidate dict (lines 519-527); the presentation-string
list `indications` is omitted. -/
structure Candidat where
  nom : String
  protocole : String
  efficacite_base : ℚ
  compatibilite_personnalisee : ℚ
  score_global : ℚ
  delai_action_attendu : ℤ
  deriving DecidableEq

/-- Stable insertion into a list sorted by decreasing `score_global`
(`list.sort(key=..., reverse=True)` is a stable descending sort). -/
def inserer_desc (c : Candidat) : List Candidat → List Candidat
  | [] => [c]
  | d :: reste => if d.score_global ≤ c.score_global then c :: d :: reste
      else d :: inserer_desc c reste

/-- Stable descending sort by `score_global` (line 530). -/
def trier_desc : List Candidat → List Candidat
  | [] => []
  | c :: reste => inserer_desc c (trier_desc reste)

/-- `_rechercher_traitements_optimaux` (lines 490-532): for every protocol
whose pathology list contains the uppercased code, for every treatment of
the protocol, build a candidate; sort descending; keep the top 3. -/
def rechercher_traitements_optimaux (patient : PatientData) (analyse_sante : AnalyseSante) :
    Except String (List Candidat) := do
  let pathologie := maj_ascii (patient.pathologie.getD "")
  let profil := patient.profil
  let symptomes := patient.symptomes.getD []
  let candidats ← protocoles_traitements.foldlM (fun acc pp =>
    if pp.2.pathologies.contains pathologie then
      pp.2.traitements.foldlM (fun acc2 traitement_nom => do
        let traitement_ref := (traitements_reference traitement_nom).getD traitement_defaut
        let score_compatibilite ← calculer_compatibilite_traitement traitement_ref profil
          analyse_sante symptomes
        let score_global := traitement_ref.efficacite * 0.4 + score_compatibilite * 0.4 +
          (1 - (traitement_ref.delai_action : ℚ) / 10) * 0.2
        let candidat : Candidat :=
          { nom := traitement_nom
            protocole := pp.1
            efficacite_base := traitement_ref.efficacite
            compatibilite_personnalisee := score_compatibilite
            score_global := score_global
            delai_action_attendu := traitement_ref.delai_action }
        pure (acc2 ++ [candidat])) acc
    else pure acc) []
  pure ((trier_desc candidats).take 3)

/-- `_predire_duree_maladie` (lines 634-659); the lookup default dict at
lines 637-639 is `{'duree_moyenne': 10, 'severite_base': 0.5}` (only the
duration is read there; the shared default record stands in). -/
def predire_duree_maladie (pathologie : String) (gravite resilience efficacite_traitement : ℚ)
    (profil : Option Profil) : ℤ :=
  let patho_ref := (pathologies_reference (maj_ascii pathologie)).getD ⟨0.5, 10, 0.5, []⟩
  let duree_base := patho_ref.duree_moyenne
  let ajustement_gravite := gravite * 0.5
  let ajustement_resilience := (1 - resilience) * 0.3
  let ajustement_traitement := (1 - efficacite_traitement) * 0.4
  let ajustement_age : ℚ := if age_de profil ≥ 65 then 0.2 else 0
  let ajustement_comorbidities := min ((comorbidities_de profil : ℚ) * 0.1) 0.3
  let duree_ajustee := (duree_base : ℚ) * (1 + ajustement_gravite - ajustement_resilience -
    ajustement_traitement + ajustement_age + ajustement_comorbidities)
  max 1 (py_int duree_ajustee)

/-- `_calculer_probabilite_succes` (lines 661-696). -/
def calculer_probabilite_succes (analyse_sante : AnalyseSante) (traitement : Candidat)
    (profil : Option Profil) : ℚ :=
  let age_group := determiner_groupe_age (age_de profil)
  let profil_ref := (profils_patients age_group).getD profil_defaut
  let probabilite := (analyse_sante.potentiel_retablissement + traitement.score_global +
    analyse_sante.resilience_patient + analyse_sante.harmonie_biologique +
    profil_ref.recuperation) / 5
  let probabilite := if analyse_sante.score_gravite > 0.8 then probabilite * 0.8
    else if analyse_sante.score_gravite < 0.3 then probabilite * 1.1 else probabilite
  let probabilite := if comorbidities_de profil ≥ 2 then probabilite * 0.9 else probabilite
  min (max probabilite 0) 1

/-- `_evaluer_stabilite_structurelle` (lines 720-727): at most two distinct
values in the final descending level (`len(set(base_finale)) <= 2`). -/
def evaluer_stabilite_structurelle (p : Pyramide) : Bool :=
  if p.inferieure = [] then true
  else (p.inferieure.getLastD []).dedup.length ≤ 2

/-- `_calculer_confiance_prediction` (lines 698-718): the mean of four
factors. -/
def calculer_confiance_prediction (analyse_sante : AnalyseSante) (traitements : List Candidat) : ℚ :=
  let meilleur_score := match traitements with
    | [] => 0.3
    | t :: reste => (reste.map (fun c => c.score_global)).foldl max t.score_global
  (analyse_sante.harmonie_biologique + meilleur_score +
    (1 - analyse_sante.score_gravite * 0.3) +
    (if evaluer_stabilite_structurelle analyse_sante.pyramide_sante then 1 else 0.7)) / 4

/-- A day of `_predire_evolution` (lines 729-752); the per-day action
strings of `_generer_actions_jour` are presentation only and omitted. -/
structure EvolutionJour where
  jour : ℕ
  score_gravite : ℚ
  etat : String
  deriving DecidableEq

/-- `_determiner_etat_from_score` (lines 754-765). -/
def determiner_etat_from_score (score : ℚ) : String :=
  if score ≥ 0.8 then "CRITIQUE"
  else if score ≥ 0.6 then "GRAVE"
  else if score ≥ 0.4 then "MODÉRÉ"
  else if score ≥ 0.2 then "STABLE"
  else "BON"

/-- `_predire_evolution` (lines 729-752). -/
def predire_evolution (analyse_sante : AnalyseSante) (duree : ℤ) : List EvolutionJour :=
  let score_initial := analyse_sante.score_gravite
  let resilience := analyse_sante.resilience_patient
  (List.range (duree.toNat + 1)).map (fun (jour : ℕ) =>
    let score := if jour = 0 then score_initial
      else max 0 (score_initial * (0.9 : ℚ) ^ jour - resilience * 0.15 * (jour : ℚ))
    { jour := jour
      score_gravite := max 0 (min score 1)
      etat := determiner_etat_from_score score })

/-- The prediction dict of `_predire_retablissement` (lines 593-632); the
wall-clock predicted date and the presentation-string lists are omitted. -/
structure PredictionRet where
  duree_maladie_predite : ℤ
  probabilite_succes : ℚ
  niveau_confiance : ℚ
  evolution_predite : List EvolutionJour
  deriving DecidableEq

/-- `_prediction_defaut` (lines 785-798). -/
def prediction_defaut : PredictionRet :=
  { duree_maladie_predite := 14
    probabilite_succes := 0.5
    niveau_confiance := 0.3
    evolution_predite := [] }

/-- `_predire_retablissement` (lines 593-632). -/
def predire_retablissement (patient : PatientData) (analyse_sante : AnalyseSante)
    (traitements : List Candidat) : PredictionRet :=
  match traitements with
  | [] => prediction_defaut
  | meilleur :: _ =>
    let duree_predite := predire_duree_maladie (patient.pathologie.getD "")
      analyse_sante.score_gravite analyse_sante.resilience_patient
      meilleur.score_global patient.profil
    { duree_maladie_predite := duree_predite
      probabilite_succes := calculer_probabilite_succes analyse_sante meilleur patient.profil
      niveau_confiance := calculer_confiance_prediction analyse_sante traitements
      evolution_predite := predire_evolution analyse_sante duree_predite }

/-- `_calculer_confiance_globale` (lines 1114-1140): the mean of five
factors. -/
def calculer_confiance_globale (analyse_sante : AnalyseSante) (prediction : PredictionRet)
    (traitements : List Candidat) : ℚ :=
  let traitement_score := match traitements with
    | [] => 0.3
    | t :: reste => (reste.map (fun c => c.score_global)).foldl max t.score_global
  let coherence := 1 - |analyse_sante.potentiel_retablissement - prediction.probabilite_succes|
  (analyse_sante.harmonie_biologique + traitement_score + prediction.niveau_confiance +
    (if evaluer_stabilite_structurelle analyse_sante.pyramide_sante then 1 else 0.7) +
    coherence) / 5

/-- The analysis result dict (lines 202-213) restricted to the fields the
claims mention; `patient_id` (a hash of a Python dict repr), the wall-clock
timestamp, the presentation fields (care plan, prognostic factors,
follow-up recommendations, warnings) and the archive write
`self.historique_patients[...] = resultat` are omitted: no claim mentions
them. -/
structure ResultatPatient where
  condition_actuelle : AnalyseSante
  traitements_recommandes : List Candidat
  prediction_retablissement : PredictionRet
  score_confiance_global : ℚ
  deriving DecidableEq

/-- `analyser_patient` (lines 180-218). -/
def analyser_patient (patient : PatientData) : Except String ResultatPatient := do
  let _ ← valider_donnees_patient patient
  let analyse_sante := analyser_condition_patient patient
  let traitements_recommandes ← rechercher_traitements_optimaux patient analyse_sante
  let prediction := predire_retablissement patient analyse_sante traitements_recommandes
  let score_confiance := calculer_confiance_globale analyse_sante prediction
    traitements_recommandes
  pure { condition_actuelle := analyse_sante
         traitements_recommandes := traitements_recommandes
         prediction_retablissement := prediction
         score_confiance_global := score_confiance }

/-- One entry of `analyses_detaillees` (lines 1245-1254): the full result,
or the per-patient error record `{'patient_id': ..., 'erreur': str(e),
'statut': 'ÉCHEC_ANALYSE'}`. -/
inductive EntreeCohorte where
  | reussite (r : ResultatPatient)
  | echec (patient_id : String) (erreur : String) (statut : String)
  deriving DecidableEq

/-- The cohort report (lines 1269-1280); the prose
`recommandations_cohorte` list is omitted. -/
structure RapportCohorte where
  total_patients : ℕ
  analyses_reussies : ℕ
  taux_reussite : ℚ
  duree_maladie_moyenne : ℚ
  probabilite_succes_moyenne : ℚ
  confiance_moyenne : ℚ
  analyses_detaillees : List EntreeCohorte
  deriving DecidableEq

/-- Exact mean of a rational list (`np.mean`). -/
def list_mean_q (l : List ℚ) : ℚ := l.sum / (l.length : ℚ)

/-- `analyser_cohorte` (lines 1241-1280): each patient analysis runs under
`try/except Exception`, a failure becoming a per-entry error record; the
means are guarded by `if analyses_reussies:` but the success rate
`len(analyses_reussies) / len(patients_data)` is not — a ZeroDivisionError
on the empty patient list. -/
def analyser_cohorte (patients_data : List PatientData) : Except String RapportCohorte :=
  let analyses := patients_data.map (fun p =>
    match analyser_patient p with
    | .ok r => EntreeCohorte.reussite r
    | .error e => EntreeCohorte.echec (p.id.getD "INCONNU") e "ÉCHEC_ANALYSE")
  let reussies := analyses.filterMap (fun a => match a with
    | .reussite r => some r
    | .echec _ _ _ => none)
  let durees_moyennes := if reussies.isEmpty then 0 else
      list_mean_q (reussies.map (fun r => (r.prediction_retablissement.duree_maladie_predite : ℚ)))
  let succes_moyen := if reussies.isEmpty then 0 else
      list_mean_q (reussies.map (fun r => r.prediction_retablissement.probabilite_succes))
  let confiance := if reussies.isEmpty then 0 else
      list_mean_q (reussies.map (fun r => r.prediction_retablissement.niveau_confiance))
  if patients_data.length = 0 then .error "ZeroDivisionError: division by zero"
  else .ok
    { total_patients := patients_data.length
      analyses_reussies := reussies.length
      taux_reussite := (reussies.length : ℚ) / (patients_data.length : ℚ)
      duree_maladie_moyenne := durees_moyennes
      probabilite_succes_moyenne := succes_moyen
      confiance_moyenne := confiance
      analyses_detaillees := analyses }

/-! ## Formulas transcribed from the claims (for comparison with the source)

These two definitions follow the CLAIM's words, not the source; each claim
theorem compares them with the embedded source function. -/

/-- Python `round` as ordinary rounding `⌊q + 1/2⌋` (used only inside the
spec-side C1 formula; the comparison inputs are far from half-integers,
where Python's banker rounding agrees with this). -/
def py_round (q : ℚ) : ℤ := ⌊q + 1 / 2⌋

/-- Claim C1's duration formula, transcribed from the claim's words:
`max(1, round(baseDuration × (1 + 0.5×severity − 0.3×resilience −
0.4×bestTreatmentScore + seniorPenalty + comorbidityPenalty)))` with
`seniorPenalty = 0.2` for age ≥ 65 and `comorbidityPenalty =
min(0.1×comorbidityCount, 0.3)`, the base duration from the pathology
reference table. -/
def duree_selon_spec (pathologie : String) (gravite resilience efficacite_traitement : ℚ)
    (profil : Option Profil) : ℤ :=
  let patho_ref := (pathologies_reference (maj_ascii pathologie)).getD ⟨0.5, 10, 0.5, []⟩
  let senior_penalty : ℚ := if age_de profil ≥ 65 then 0.2 else 0
  let comorbidity_penalty := min ((comorbidities_de profil : ℚ) * 0.1) 0.3
  max 1 (py_round ((patho_ref.duree_moyenne : ℚ) * (1 + 0.5 * gravite - 0.3 * resilience -
    0.4 * efficacite_traitement + senior_penalty + comorbidity_penalty)))

/-- Claim C6's overlap formula, transcribed from the claim's words: the
fraction of the PATIENT's symptoms that appear in the treatment's
target-symptom list, capped at 1; 0.5 for a treatment with no mapped
targets. -/
def adequation_selon_spec (nom_traitement : String) (symptomes : List String) : ℚ :=
  let cibles := cibles_traitement nom_traitement
  if cibles = [] then 0.5
  else min ((symptomes.countP (fun s => cibles.contains s) : ℚ) / (symptomes.length : ℚ)) 1

/-! ## Concrete inputs used by the claim theorems -/

/-- The GRIPPE patient of tests_medical.py (test_different_pathologies,
first case). -/
def patient_grippe_c1 : PatientData :=
  { id := none
    pathologie := some "GRIPPE"
    symptomes := some ["FIÈVRE", "TOUX", "FATIGUE"]
    profil := some { age := some 25, comorbidities := some 0, immunity_level := none } }

/-- The patient of test_core.py test_patient_analysis. -/
def patient_grippe_c3 : PatientData :=
  { id := none
    pathologie := some "GRIPPE"
    symptomes := some ["FIÈVRE", "TOUX"]
    profil := some { age := some 30, comorbidities := some 0, immunity_level := some 0.8 } }

/-- The COVID patient of tests_medical.py test_treatment_relevance. -/
def patient_covid_c8 : PatientData :=
  { id := none
    pathologie := some "COVID"
    symptomes := some ["FIÈVRE", "TOUX", "ANOSMIE"]
    profil := some { age := some 45, comorbidities := some 1, immunity_level := none } }

/-- The senior patient of tests_medical.py test_age_impact. -/
def patient_age_70 : PatientData :=
  { id := none
    pathologie := some "GRIPPE"
    symptomes := some ["FIÈVRE", "TOUX"]
    profil := some { age := some 70, comorbidities := some 0, immunity_level := none } }

/-- The young patient of tests_medical.py test_age_impact. -/
def patient_age_20 : PatientData :=
  { id := none
    pathologie := some "GRIPPE"
    symptomes := some ["FIÈVRE", "TOUX"]
    profil := some { age := some 20, comorbidities := some 0, immunity_level := none } }

/-- A patient with the required `pathologie` key absent (rejected by
validation before any computation). -/
def patient_invalide_c10 : PatientData :=
  { id := some "P1", pathologie := none, symptomes := some [], profil := none }

/-- The engine state after `analyser_sequence([5], "A")` from a fresh
`AlgoVerite()`. -/
def etat_c4 : EtatVerite :=
  match analyser_sequence ⟨[]⟩ [5] "A" with
  | .ok (etat, _) => etat
  | .error _ => ⟨[]⟩

/-- The C4 tampering: the archived copy of the sequence has its one base
element altered (5 becomes 7); the archived signature is untouched. -/
def etat_c4_tampere : EtatVerite :=
  ⟨etat_c4.archives_analyses.map (fun kv =>
    if kv.1 = "A" then (kv.1, { kv.2 with sequence_originale := [7] }) else kv)⟩

/-- The engine state after `analyser_sequence([1, 2], "A")` from a fresh
`AlgoVerite()`. -/
def etat_c5 : EtatVerite :=
  match analyser_sequence ⟨[]⟩ [1, 2] "A" with
  | .ok (etat, _) => etat
  | .error _ => ⟨[]⟩

/-- The C5 tampering: the archived root signature is replaced by "X" (the
sequence is kept), so the replayed signature cannot match it. -/
def etat_c5_tampere : EtatVerite :=
  ⟨etat_c5.archives_analyses.map (fun kv =>
    if kv.1 = "A" then (kv.1, { kv.2 with signatures :=
      { kv.2.signatures with signature_racine := "X" } }) else kv)⟩

/-- A 30-year-old profile with no comorbidities and immunity 0.7, used in
the C1 comparison. -/
def profil_c1 : Profil := { age := some 30, comorbidities := some 0, immunity_level := some 0.7 }

/-- The tampered archive entry of the C5 scenario: sequence [1, 2] kept,
root signature replaced by "X". -/
def entree_c5 : AnalyseResultat :=
  ⟨"A", [1, 2], construire_pyramide [1, 2],
    { calculer_signatures (construire_pyramide [1, 2]) "A" with signature_racine := "X" }⟩

/-! ## Lemmas and claim theorems -/

theorem niveau_suivant_somme_length : ∀ l : List ℤ, (niveau_suivant_somme l).length = l.length - 1
  | [] => rfl
  | [_] => rfl
  | _ :: b :: reste => by
    simpa [niveau_suivant_somme] using niveau_suivant_somme_length (b :: reste)

theorem niveau_suivant_diff_length : ∀ l : List ℤ, (niveau_suivant_diff l).length = l.length - 1
  | [] => rfl
  | [_] => rfl
  | _ :: b :: reste => by
    simpa [niveau_suivant_diff] using niveau_suivant_diff_length (b :: reste)

theorem comptes_decroissants_length : ∀ k, (comptes_decroissants k).length = k
  | 0 => rfl
  | k + 1 => by simp [comptes_decroissants, comptes_decroissants_length k]

theorem comptes_croissants_length : ∀ k, (comptes_croissants k).length = k
  | 0 => rfl
  | k + 1 => by simp [comptes_croissants, comptes_croissants_length k]

theorem comptes_decroissants_getLastD : ∀ (k : ℕ) (d : ℕ),
    (comptes_decroissants (k + 1)).getLastD d = 1
  | 0, _ => rfl
  | k + 1, d => by
    rw [comptes_decroissants]
    simpa using comptes_decroissants_getLastD k (k + 2)

theorem comptes_croissants_cons : ∀ k, ∃ t, comptes_croissants (k + 1) = 1 :: t
  | 0 => ⟨[], rfl⟩
  | k + 1 => by
    obtain ⟨t, ht⟩ := comptes_croissants_cons k
    exact ⟨t ++ [k + 2], by rw [comptes_croissants, ht]; rfl⟩

theorem construire_inferieure_lengths : ∀ (fuel : ℕ) (l : List ℤ), l.length ≤ fuel + 1 →
    (construire_inferieure fuel l).map List.length = comptes_decroissants (l.length - 1)
  | 0, l, h => by
    interval_cases hl : l.length
    · simp [construire_inferieure, comptes_decroissants]
    · simp [construire_inferieure, comptes_decroissants]
  | fuel + 1, l, h => by
    rw [construire_inferieure]
    by_cases hl : l.length > 1
    · have hnext : (niveau_suivant_diff l).length = l.length - 1 := niveau_suivant_diff_length l
      have hrec := construire_inferieure_lengths fuel (niveau_suivant_diff l)
        (by omega)
      simp only [hl, if_true, List.map_cons, hrec, hnext]
      obtain ⟨m, hm⟩ : ∃ m, l.length = m + 2 := ⟨l.length - 2, by omega⟩
      rw [hm]
      rfl
    · simp only [hl, if_false]
      have : l.length - 1 = 0 := by omega
      rw [this]
      rfl

theorem construire_superieure_lengths : ∀ (fuel : ℕ) (l : List ℤ), l.length ≤ fuel + 1 →
    (construire_superieure fuel l).map List.length = comptes_croissants (l.length - 1)
  | 0, l, h => by
    interval_cases hl : l.length
    · simp [construire_superieure, comptes_croissants]
    · simp [construire_superieure, comptes_croissants]
  | fuel + 1, l, h => by
    rw [construire_superieure]
    by_cases hl : l.length > 1
    · have hnext : (niveau_suivant_somme l).length = l.length - 1 := niveau_suivant_somme_length l
      have hrec := construire_superieure_lengths fuel (niveau_suivant_somme l)
        (by omega)
      simp only [hl, if_true, List.map_append, List.map_cons, List.map_nil, hrec, hnext]
      obtain ⟨m, hm⟩ : ∃ m, l.length = m + 2 := ⟨l.length - 2, by omega⟩
      rw [hm]
      rfl
    · simp only [hl, if_false]
      have : l.length - 1 = 0 := by omega
      rw [this]
      rfl

theorem length_getLastD_map : ∀ (l : List (List ℤ)) (d : List ℤ),
    (l.getLastD d).length = (l.map List.length).getLastD d.length
  | [], _ => rfl
  | [a], d => rfl
  | a :: b :: l, d => by
    have h1 : (a :: b :: l).getLastD d = (b :: l).getLastD a := by
      simp [List.getLastD, List.getLast?_cons_cons]
    have h2 : ((a :: b :: l).map List.length).getLastD d.length
        = ((b :: l).map List.length).getLastD a.length := by
      simp [List.getLastD, List.getLast?_cons_cons]
    rw [h1, h2]
    exact length_getLastD_map (b :: l) a


/-- Clamp bounds: `max 0 (min x 1)` lies in [0, 1]. -/
theorem clamp01 (x : ℚ) : 0 ≤ max 0 (min x 1) ∧ max 0 (min x 1) ≤ 1 :=
  ⟨le_max_left 0 _, max_le (by norm_num) (min_le_right x 1)⟩

/-- `calculer_gravite` always lands in [0, 1]. -/
theorem calculer_gravite_bornes (symptomes pathologie : List ℤ) (patient : PatientData) :
    0 ≤ calculer_gravite symptomes pathologie patient ∧
      calculer_gravite symptomes pathologie patient ≤ 1 := by
  simp only [calculer_gravite]
  by_cases h1 : symptomes = [] ∨ pathologie = []
  · rw [if_pos h1]; norm_num
  · rw [if_neg h1]; exact clamp01 _

/-- `calculer_resilience` always lands in [0, 1]. -/
theorem calculer_resilience_bornes (profil : List ℤ) (p : Pyramide) (patient : PatientData) :
    0 ≤ calculer_resilience profil p patient ∧ calculer_resilience profil p patient ≤ 1 := by
  simp only [calculer_resilience]
  exact clamp01 _

/-- `evaluer_potentiel_retablissement` always lands in [0, 1]. -/
theorem evaluer_potentiel_bornes (p : Pyramide) :
    0 ≤ evaluer_potentiel_retablissement p ∧ evaluer_potentiel_retablissement p ≤ 1 := by
  simp only [evaluer_potentiel_retablissement]
  by_cases h1 : p.superieure = [] ∨ p.inferieure = []
  · rw [if_pos h1]; norm_num
  · rw [if_neg h1]; exact clamp01 _

/-- `evaluer_harmonie_biologique` always lands in [0, 1]. -/
theorem evaluer_harmonie_bornes (p : Pyramide) :
    0 ≤ evaluer_harmonie_biologique p ∧ evaluer_harmonie_biologique p ≤ 1 := by
  simp only [evaluer_harmonie_biologique]
  by_cases h1 : p.superieure = [] ∨ p.inferieure = []
  · rw [if_pos h1]; norm_num
  · rw [if_neg h1]
    by_cases h2 : p.superieure.flatten = [] ∨ p.inferieure.flatten = []
    · rw [if_pos h2]; norm_num
    · rw [if_neg h2]
      by_cases h3 : list_mean p.superieure.flatten = 0 ∨ list_mean p.inferieure.flatten = 0
      · rw [if_pos h3]; norm_num
      · rw [if_neg h3]
        exact clamp01 _

/-- C2: For every non-empty base sequence `x :: reste` of length n, the
pyramid builder produces exactly n−1 stored ascending levels (stored
lengths `[1, 2, ..., n−1]`: index 0 is the apex, a single element, each
level one element shorter than the one it was built from) and exactly n−1
descending levels (lengths `[n−1, ..., 1]`: each one element shorter than
the previous, the last a single element); consequently the symmetry metric
`1 − |len(ascending) − len(descending)| / max(len(ascending),
len(descending), 1)` of `_calculate_pyramid_metrics` equals 1.0. -/
theorem c2_pyramide_niveaux_symetrie (x : ℤ) (reste : List ℤ) :
    (construire_pyramide (x :: reste)).superieure.length = (x :: reste).length - 1 ∧
    (construire_pyramide (x :: reste)).inferieure.length = (x :: reste).length - 1 ∧
    (construire_pyramide (x :: reste)).superieure.map List.length =
      comptes_croissants ((x :: reste).length - 1) ∧
    (construire_pyramide (x :: reste)).inferieure.map List.length =
      comptes_decroissants ((x :: reste).length - 1) ∧
    symmetry_score (construire_pyramide (x :: reste)) = 1 := by
  have hsup := construire_superieure_lengths (x :: reste).length (x :: reste) (by omega)
  have hinf := construire_inferieure_lengths (x :: reste).length (x :: reste) (by omega)
  have hsup2 : (construire_pyramide (x :: reste)).superieure.map List.length =
      comptes_croissants ((x :: reste).length - 1) := by
    simpa [construire_pyramide] using hsup
  have hinf2 : (construire_pyramide (x :: reste)).inferieure.map List.length =
      comptes_decroissants ((x :: reste).length - 1) := by
    simpa [construire_pyramide] using hinf
  have hsl : (construire_pyramide (x :: reste)).superieure.length = (x :: reste).length - 1 := by
    have h := congrArg List.length hsup2
    simpa [comptes_croissants_length] using h
  have hil : (construire_pyramide (x :: reste)).inferieure.length = (x :: reste).length - 1 := by
    have h := congrArg List.length hinf2
    simpa [comptes_decroissants_length] using h
  refine ⟨hsl, hil, hsup2, hinf2, ?_⟩
  rw [symmetry_score, hsl, hil]
  simp

/-- C9: the stability metric of `_calculate_stability` equals 1.0 on every
pyramid the builder produces from a non-empty base, for EVERY possible
value of the `np.std` parameter: the coefficient-of-variation branch is
never reached, because the final descending level always has exactly one
element (and the descending branch is empty for a length-1 base). -/
theorem c9_stabilite_un (np_std : List ℤ → ℚ) (x : ℤ) (reste : List ℤ) :
    calculate_stability np_std (construire_pyramide (x :: reste)) = 1 := by
  rcases reste with _ | ⟨y, reste2⟩
  · have h : (construire_pyramide [x]).inferieure = [] := rfl
    rw [calculate_stability, if_pos h]
  · have hinf : (construire_pyramide (x :: y :: reste2)).inferieure.map List.length =
        comptes_decroissants (reste2.length + 1) := by
      have h := construire_inferieure_lengths (x :: y :: reste2).length (x :: y :: reste2)
        (by omega)
      simpa [construire_pyramide] using h
    have hne : (construire_pyramide (x :: y :: reste2)).inferieure ≠ [] := by
      intro h
      rw [h] at hinf
      simp [comptes_decroissants] at hinf
    have hlast : ((construire_pyramide (x :: y :: reste2)).inferieure.getLastD []).length = 1 := by
      rw [length_getLastD_map, hinf]
      exact comptes_decroissants_getLastD reste2.length _
    rw [calculate_stability, if_neg hne]
    simp only [hlast, if_pos]

/-- C3: the four composite scores that `_analyser_condition_patient` does
produce — severity, recovery potential, resilience, biological harmony —
lie in [0, 1] for every input; but on a valid patient (the one of
test_core.py test_patient_analysis) `analyser_patient` never produces the
remaining three scores (success probability, prediction confidence, global
confidence): the treatment search reads `traitement['nom']` from the
reference record, which has no such key, and the analysis aborts with a
KeyError. -/
theorem c3_scores_bornes_et_crash :
    (∀ patient : PatientData,
      (0 ≤ (analyser_condition_patient patient).score_gravite ∧
        (analyser_condition_patient patient).score_gravite ≤ 1) ∧
      (0 ≤ (analyser_condition_patient patient).potentiel_retablissement ∧
        (analyser_condition_patient patient).potentiel_retablissement ≤ 1) ∧
      (0 ≤ (analyser_condition_patient patient).resilience_patient ∧
        (analyser_condition_patient patient).resilience_patient ≤ 1) ∧
      (0 ≤ (analyser_condition_patient patient).harmonie_biologique ∧
        (analyser_condition_patient patient).harmonie_biologique ≤ 1)) ∧
    analyser_patient patient_grippe_c3 = .error "KeyError: nom" := by
  constructor
  · intro patient
    refine ⟨?_, ?_, ?_, ?_⟩
    · exact calculer_gravite_bornes _ _ _
    · exact evaluer_potentiel_bornes _
    · exact calculer_resilience_bornes _ _ _
    · exact evaluer_harmonie_bornes _
  · rfl

/-- C7: the durations the claim compares are never produced. On the two
patients of tests_medical.py test_age_impact (identical but for age 70 vs
age 20), `analyser_patient` aborts with the same KeyError before reaching
`_predire_duree_maladie`; the repository's own test asserts the senior
duration is ≥ the young one and cannot pass. -/
theorem c7_age_crash :
    analyser_patient patient_age_70 = .error "KeyError: nom" ∧
    analyser_patient patient_age_20 = .error "KeyError: nom" :=
  ⟨rfl, rfl⟩

/-- C8: `_valider_donnees_patient` raises a ValueError exactly when one of
the required keys (pathologie, symptomes, profil) is absent or the
uppercased pathology code is not in the reference table — but in every
other case the analysis does NOT proceed to a result: it aborts with a
KeyError in the treatment search (shown here on the COVID patient of
tests_medical.py, which passes validation). -/
theorem c8_validation_ssi :
    (∀ patient : PatientData,
      (∃ e, valider_donnees_patient patient = .error e) ↔
        (patient.pathologie = none ∨ patient.symptomes = none ∨ patient.profil = none ∨
         pathologies_reference (maj_ascii (patient.pathologie.getD "")) = none)) ∧
    valider_donnees_patient patient_covid_c8 = .ok () ∧
    analyser_patient patient_covid_c8 = .error "KeyError: nom" := by
  refine ⟨?_, rfl, rfl⟩
  intro patient
  unfold valider_donnees_patient
  split_ifs with h1 h2 h3 h4
  · exact ⟨fun _ => Or.inl h1, fun _ => ⟨_, rfl⟩⟩
  · exact ⟨fun _ => Or.inr (Or.inl h2), fun _ => ⟨_, rfl⟩⟩
  · exact ⟨fun _ => Or.inr (Or.inr (Or.inl h3)), fun _ => ⟨_, rfl⟩⟩
  · exact ⟨fun _ => Or.inr (Or.inr (Or.inr h4)), fun _ => ⟨_, rfl⟩⟩
  · constructor
    · rintro ⟨e, he⟩
      cases he
    · rintro (h | h | h | h)
      · exact absurd h h1
      · exact absurd h h2
      · exact absurd h h3
      · exact absurd h h4

/-- Counting the successful entries of the cohort: the `filterMap` over the
per-patient records counts exactly the patients whose analysis returns
without an exception. -/
theorem cohorte_reussies_compte : ∀ patients_data : List PatientData,
    ((patients_data.map (fun p =>
        match analyser_patient p with
        | .ok r => EntreeCohorte.reussite r
        | .error e => EntreeCohorte.echec (p.id.getD "INCONNU") e "ÉCHEC_ANALYSE")).filterMap
      (fun a => match a with
        | .reussite r => some r
        | .echec _ _ _ => none)).length =
    patients_data.countP (fun p => (analyser_patient p).isOk)
  | [] => rfl
  | p :: reste => by
    have ih := cohorte_reussies_compte reste
    cases h : analyser_patient p <;>
      simp [List.countP_cons, h, ih, Except.isOk, Except.toBool, -List.filterMap_map]

/-- C10: cohort analysis of the empty patient list raises ZeroDivisionError
(`len(analyses_reussies) / len(patients_data)` has no guard); on every
non-empty list it returns a report whose success rate is
successfulAnalyses / totalPatients, where totalPatients is the input length
and successfulAnalyses counts the patients whose analysis raised nothing. -/
theorem c10_cohorte_taux :
    analyser_cohorte [] = .error "ZeroDivisionError: division by zero" ∧
    (∀ patients_data : List PatientData, patients_data ≠ [] →
      ∃ rapport, analyser_cohorte patients_data = .ok rapport ∧
        rapport.total_patients = patients_data.length ∧
        rapport.analyses_reussies = patients_data.countP (fun p => (analyser_patient p).isOk) ∧
        rapport.taux_reussite =
          (rapport.analyses_reussies : ℚ) / (rapport.total_patients : ℚ)) := by
  constructor
  · rfl
  · intro patients_data hne
    obtain ⟨p, reste, rfl⟩ : ∃ p reste, patients_data = p :: reste := by
      cases patients_data with
      | nil => exact absurd rfl hne
      | cons p reste => exact ⟨p, reste, rfl⟩
    unfold analyser_cohorte
    rw [if_neg (show ¬((p :: reste).length = 0) by simp)]
    exact ⟨_, rfl, rfl, cohorte_reussies_compte (p :: reste), rfl⟩

/-- Under `max 1`, Python truncation toward zero agrees with the floor:
for q ≥ 0 they coincide, and for q < 0 both sides are 1. -/
theorem max_one_py_int (q : ℚ) : max 1 (py_int q) = max 1 ⌊q⌋ := by
  unfold py_int
  split_ifs with h
  · rfl
  · push_neg at h
    have h1 : (⌈q⌉ : ℤ) ≤ 0 := Int.ceil_le.mpr (by exact_mod_cast h.le)
    have h2 : ⌊q⌋ ≤ 0 := Int.floor_nonpos h.le
    rw [max_eq_left (by omega), max_eq_left (by omega)]

/-- C1 (amended): `_predire_duree_maladie` returns
`max(1, ⌊baseDuration × (1 + 0.5×severity − 0.3×(1−resilience) −
0.4×(1−bestTreatmentScore) + seniorPenalty + comorbidityPenalty)⌋)` — the
resilience and treatment adjustments enter through (1 − x), Python `int()`
truncation behaves as the floor under the `max 1` — and the full pipeline
never reaches it: on a valid patient, `analyser_patient` aborts with a
KeyError inside the treatment search. -/
theorem c1_duree_formule :
    (∀ (pathologie : String) (gravite resilience efficacite_traitement : ℚ)
        (profil : Option Profil),
      predire_duree_maladie pathologie gravite resilience efficacite_traitement profil =
        max 1 ⌊(((pathologies_reference (maj_ascii pathologie)).getD
            ⟨0.5, 10, 0.5, []⟩).duree_moyenne : ℚ) *
          (1 + 0.5 * gravite - 0.3 * (1 - resilience) - 0.4 * (1 - efficacite_traitement) +
            (if age_de profil ≥ 65 then 0.2 else 0) +
            min (0.1 * (comorbidities_de profil : ℚ)) 0.3)⌋) ∧
    analyser_patient patient_grippe_c1 = .error "KeyError: nom" := by
  refine ⟨?_, rfl⟩
  intro pathologie gravite resilience efficacite_traitement profil
  unfold predire_duree_maladie
  rw [max_one_py_int]
  congr 2
  rw [mul_comm ((comorbidities_de profil : ℚ)) (0.1 : ℚ)]
  ring_nf

/-- C1 (counterexample): on the GRIPPE patient of tests_medical.py the
pipeline produces no duration at all (KeyError), and the helper itself
disagrees with the claim's formula: at severity 0, resilience 1, treatment
score 1 the code gives 7 (the full base duration) where the claim's
`max(1, round(7 × (1 − 0.3 − 0.4)))` gives 2. -/
theorem c1_contre_exemple :
    analyser_patient patient_grippe_c1 = .error "KeyError: nom" ∧
    predire_duree_maladie "GRIPPE" 0 1 1 (some profil_c1) = 7 ∧
    duree_selon_spec "GRIPPE" 0 1 1 (some profil_c1) = 2 ∧
    (7 : ℤ) ≠ 2 := by
  refine ⟨rfl, ?_, ?_, by decide⟩
  · unfold predire_duree_maladie
    rw [show maj_ascii "GRIPPE" = "GRIPPE" from by decide]
    rw [show age_de (some profil_c1) = 30 from rfl]
    rw [show comorbidities_de (some profil_c1) = 0 from rfl]
    norm_num [pathologies_reference, py_int]
  · unfold duree_selon_spec
    rw [show maj_ascii "GRIPPE" = "GRIPPE" from by decide]
    rw [show age_de (some profil_c1) = 30 from rfl]
    rw [show comorbidities_de (some profil_c1) = 0 from rfl]
    norm_num [pathologies_reference, py_round]

/-- C6 (amended): as called by the compatibility computation, the overlap
evaluation always receives a record without the `'nom'` key (third
conjunct: true of every lookup in the treatment table, default included)
and raises KeyError (first conjunct); on a dict that does carry the name,
the factor is `min(m / t, 1)` where m counts the PATIENT symptoms found in
the treatment's target list and t is the size of the TARGET list — not the
fraction of the patient's symptoms — with 0.5 for a treatment without
mapped targets (second conjunct). -/
theorem c6_adequation_formule :
    (∀ (traitement : TraitementRef) (symptomes : List String), traitement.nom = none →
      evaluer_adequation_symptomes traitement symptomes = .error "KeyError: nom") ∧
    (∀ (traitement : TraitementRef) (nomT : String) (symptomes : List String),
      traitement.nom = some nomT →
      evaluer_adequation_symptomes traitement symptomes =
        .ok (if cibles_traitement nomT = [] then 0.5
          else min
            (((symptomes.filter (fun s => (cibles_traitement nomT).contains s)).length : ℚ) /
              ((cibles_traitement nomT).length : ℚ)) 1)) ∧
    (∀ nomT : String, ((traitements_reference nomT).getD traitement_defaut).nom = none) := by
  refine ⟨?_, ?_, ?_⟩
  · intro traitement symptomes h
    unfold evaluer_adequation_symptomes
    rw [h]
  · intro traitement nomT symptomes h
    unfold evaluer_adequation_symptomes
    rw [h]
    simp only [List.countP_eq_length_filter]
    split_ifs <;> rfl
  · intro nomT
    unfold traitements_reference traitement_defaut
    split_ifs <;> rfl

/-- C6 (counterexample): the pipeline's own call crashes (the ANTIVIRAL
reference record has no name key), and on a name-carrying dict the factor
for ANTIVIRAL (targets FIÈVRE and FATIGUE) against the single patient
symptom FIÈVRE is 1/2 — the fraction of the TARGET list — where the claim
(all of the patient's symptoms are targeted) demands 1. -/
theorem c6_contre_exemple :
    evaluer_adequation_symptomes ((traitements_reference "ANTIVIRAL").getD traitement_defaut)
      ["FIÈVRE"] = .error "KeyError: nom" ∧
    evaluer_adequation_symptomes
      { nom := some "ANTIVIRAL", efficacite := 0.7, delai_action := 2, compatibilite := 0.8,
        pathologies := ["GRIPPE", "COVID"] } ["FIÈVRE"] = .ok (1 / 2) ∧
    adequation_selon_spec "ANTIVIRAL" ["FIÈVRE"] = 1 ∧
    ((1 : ℚ) / 2) ≠ 1 := by
  refine ⟨rfl, ?_, ?_, by norm_num⟩
  · have hred : evaluer_adequation_symptomes
        { nom := some "ANTIVIRAL", efficacite := 0.7, delai_action := 2, compatibilite := 0.8,
          pathologies := ["GRIPPE", "COVID"] } ["FIÈVRE"] =
        Except.ok (((1 : ℕ) : ℚ) / ((2 : ℕ) : ℚ) ⊓ 1) := rfl
    rw [hred]
    exact congrArg Except.ok (by norm_num)
  · have hred : adequation_selon_spec "ANTIVIRAL" ["FIÈVRE"] =
        ((1 : ℕ) : ℚ) / ((1 : ℕ) : ℚ) ⊓ 1 := rfl
    rw [hred]
    norm_num

/-- Looking up the key just inserted returns the inserted value. -/
theorem dict_get_insert {α : Type} (k : String) (v : α) : ∀ l : List (String × α),
    dict_get? k (dict_insert k v l) = some v
  | [] => by simp [dict_insert, dict_get?]
  | (k2, v2) :: reste => by
    by_cases h : k2 = k
    · simp [dict_insert, dict_get?, h]
    · simp [dict_insert, dict_get?, h, dict_get_insert k v reste]

/-- A root signature always starts with the 7-character marker VERITE-. -/
theorem signature_racine_longueur (p : Pyramide) (nom : String) :
    7 ≤ (calculer_signatures p nom).signature_racine.length := by
  have h : (calculer_signatures p nom).signature_racine =
      "VERITE-" ++ (sha256_hexdigest
        (nom ++ String.join ((p.superieure.flatten).map (fun x => toString x)))).take 16 := rfl
  rw [h, String.length_append]
  have h7 : ("VERITE-" : String).length = 7 := by decide
  omega

/-- No root signature is the one-character string "X". -/
theorem signature_racine_ne_X (p : Pyramide) (nom : String) :
    (calculer_signatures p nom).signature_racine ≠ "X" := by
  intro h
  have h7 := signature_racine_longueur p nom
  rw [h] at h7
  have h1 : ("X" : String).length = 1 := by decide
  omega

/-- The root signature of a length-1 sequence does not depend on the base
value: the ascending branch is empty, so the hashed payload is the name
alone. -/
theorem signature_racine_singleton (x : ℤ) (nom : String) :
    (calculer_signatures (construire_pyramide [x]) nom).signature_racine =
      "VERITE-" ++ (sha256_hexdigest nom).take 16 := by
  have h : (calculer_signatures (construire_pyramide [x]) nom).signature_racine =
      "VERITE-" ++ (sha256_hexdigest (nom ++ String.join [])).take 16 := rfl
  rw [h, show nom ++ String.join [] = nom from by simp [String.join]]

/-- `analyser_sequence` on a non-empty sequence: the one success shape. -/
theorem analyser_sequence_ok (etat : EtatVerite) (sequence : List ℤ) (nom : String)
    (h : sequence ≠ []) :
    analyser_sequence etat sequence nom =
      .ok (⟨dict_insert nom ⟨nom, sequence, construire_pyramide sequence,
          calculer_signatures (construire_pyramide sequence) nom⟩ etat.archives_analyses⟩,
        ⟨nom, sequence, construire_pyramide sequence,
          calculer_signatures (construire_pyramide sequence) nom⟩) := by
  simp only [analyser_sequence, if_neg h]

/-- Inversion of `analyser_sequence`: a success determines both outputs. -/
theorem analyser_sequence_ok_inv (etat etat2 : EtatVerite) (sequence : List ℤ) (nom : String)
    (res : AnalyseResultat) (h : analyser_sequence etat sequence nom = .ok (etat2, res)) :
    sequence ≠ [] ∧
    etat2 = ⟨dict_insert nom res etat.archives_analyses⟩ ∧
    res = ⟨nom, sequence, construire_pyramide sequence,
      calculer_signatures (construire_pyramide sequence) nom⟩ := by
  by_cases hs : sequence = []
  · rw [analyser_sequence, if_pos hs] at h
    cases h
  · rw [analyser_sequence_ok etat sequence nom hs] at h
    simp only [Except.ok.injEq, Prod.mk.injEq] at h
    refine ⟨hs, ?_, h.2.symm⟩
    rw [← h.1, ← h.2]

/-- `verifier_integrite` on a found entry with a replayable sequence:
it re-archives the fresh analysis and compares root signatures. -/
theorem verifier_integrite_eq (etat : EtatVerite) (nom : String) (entry : AnalyseResultat)
    (hget : dict_get? nom etat.archives_analyses = some entry)
    (hne : entry.sequence_originale ≠ []) :
    verifier_integrite etat nom = .ok
      (⟨dict_insert nom ⟨nom, entry.sequence_originale,
          construire_pyramide entry.sequence_originale,
          calculer_signatures (construire_pyramide entry.sequence_originale) nom⟩
          etat.archives_analyses⟩,
       .verdict
        { statut := if (entry.signatures.signature_racine ==
            (calculer_signatures (construire_pyramide entry.sequence_originale)
              nom).signature_racine) then "INTÈGRE" else "CORROMPU"
          nom := nom
          signature_originale := entry.signatures.signature_racine
          signature_actuelle := (calculer_signatures
            (construire_pyramide entry.sequence_originale) nom).signature_racine
          confiance := if (entry.signatures.signature_racine ==
            (calculer_signatures (construire_pyramide entry.sequence_originale)
              nom).signature_racine) then 1 else 0 }) := by
  simp only [verifier_integrite, hget,
    analyser_sequence_ok etat entry.sequence_originale nom hne]

/-- C4 (amended): replaying an archive written by `analyser_sequence`
itself always verifies INTACT with confidence 1.0 (first conjunct); on any
archived entry, the verdict is INTACT/1.0 or CORRUPTED/0.0 exactly as the
archived root signature equals, or differs from, the signature recomputed
from the archived sequence (second conjunct); and for single-element
sequences the root signature does not depend on the element at all, so a
one-element alteration of such an archive is NOT detected (third
conjunct). -/
theorem c4_integrite_verdicts :
    (∀ (etat : EtatVerite) (sequence : List ℤ) (nom : String) (etat2 : EtatVerite)
        (res : AnalyseResultat),
      analyser_sequence etat sequence nom = .ok (etat2, res) →
      ∃ etat3 v, verifier_integrite etat2 nom = .ok (etat3, .verdict v) ∧
        v.statut = "INTÈGRE" ∧ v.confiance = 1) ∧
    (∀ (etat : EtatVerite) (nom : String) (entry : AnalyseResultat),
      dict_get? nom etat.archives_analyses = some entry →
      entry.sequence_originale ≠ [] →
      ∃ etat3 v, verifier_integrite etat nom = .ok (etat3, .verdict v) ∧
        v.statut = (if entry.signatures.signature_racine =
          (calculer_signatures (construire_pyramide entry.sequence_originale)
            nom).signature_racine then "INTÈGRE" else "CORROMPU") ∧
        v.confiance = (if entry.signatures.signature_racine =
          (calculer_signatures (construire_pyramide entry.sequence_originale)
            nom).signature_racine then 1 else 0)) ∧
    (∀ (x y : ℤ) (nom : String),
      (calculer_signatures (construire_pyramide [x]) nom).signature_racine =
        (calculer_signatures (construire_pyramide [y]) nom).signature_racine) := by
  have hmain : ∀ (etat : EtatVerite) (nom : String) (entry : AnalyseResultat),
      dict_get? nom etat.archives_analyses = some entry →
      entry.sequence_originale ≠ [] →
      ∃ etat3 v, verifier_integrite etat nom = .ok (etat3, .verdict v) ∧
        v.statut = (if entry.signatures.signature_racine =
          (calculer_signatures (construire_pyramide entry.sequence_originale)
            nom).signature_racine then "INTÈGRE" else "CORROMPU") ∧
        v.confiance = (if entry.signatures.signature_racine =
          (calculer_signatures (construire_pyramide entry.sequence_originale)
            nom).signature_racine then 1 else 0) := by
    intro etat nom entry hget hne
    rw [verifier_integrite_eq etat nom entry hget hne]
    refine ⟨_, _, rfl, ?_, ?_⟩ <;>
      (by_cases h : entry.signatures.signature_racine =
          (calculer_signatures (construire_pyramide entry.sequence_originale)
            nom).signature_racine <;>
        simp [h])
  refine ⟨?_, hmain, ?_⟩
  · intro etat sequence nom etat2 res h
    obtain ⟨hs, hetat2, hres⟩ := analyser_sequence_ok_inv etat etat2 sequence nom res h
    have hget : dict_get? nom etat2.archives_analyses = some res := by
      rw [hetat2]
      exact dict_get_insert nom res etat.archives_analyses
    have hne : res.sequence_originale ≠ [] := by rw [hres]; exact hs
    obtain ⟨etat3, v, hv, hstat, hconf⟩ := hmain etat2 nom res hget hne
    have hsig : res.signatures.signature_racine =
        (calculer_signatures (construire_pyramide res.sequence_originale)
          nom).signature_racine := by
      rw [hres]
    exact ⟨etat3, v, hv, by rw [hstat, if_pos hsig], by rw [hconf, if_pos hsig]⟩
  · intro x y nom
    rw [signature_racine_singleton, signature_racine_singleton]

/-- C4 (counterexample): archive the one-element sequence [5] under the
name A, alter the archived element to 7, and run the verifier: it reports
INTACT with confidence 1.0, not CORRUPTED with 0.0 — the root signature
hashes the name and the ascending levels only, and a length-1 sequence has
none. -/
theorem c4_contre_exemple :
    ([7] : List ℤ) ≠ [5] ∧
    (∃ etat3 v, verifier_integrite etat_c4_tampere "A" = .ok (etat3, .verdict v) ∧
      v.statut = "INTÈGRE" ∧ v.confiance = 1) := by
  refine ⟨by decide, ?_⟩
  have hget : dict_get? "A" etat_c4_tampere.archives_analyses = some
      ⟨"A", [7], construire_pyramide [5],
        calculer_signatures (construire_pyramide [5]) "A"⟩ := rfl
  have hv := verifier_integrite_eq etat_c4_tampere "A" _ hget (by decide)
  rw [hv]
  have hsig : (calculer_signatures (construire_pyramide [5]) "A").signature_racine =
      (calculer_signatures (construire_pyramide ([7] : List ℤ)) "A").signature_racine := by
    rw [signature_racine_singleton, signature_racine_singleton]
  refine ⟨_, _, rfl, ?_, ?_⟩
  · show (if ((calculer_signatures (construire_pyramide [5]) "A").signature_racine ==
        (calculer_signatures (construire_pyramide ([7] : List ℤ)) "A").signature_racine)
      then "INTÈGRE" else "CORROMPU") = "INTÈGRE"
    rw [hsig, if_pos (beq_iff_eq.mpr rfl)]
  · show (if ((calculer_signatures (construire_pyramide [5]) "A").signature_racine ==
        (calculer_signatures (construire_pyramide ([7] : List ℤ)) "A").signature_racine)
      then (1 : ℚ) else 0) = 1
    rw [hsig, if_pos (beq_iff_eq.mpr rfl)]

/-- C5 (amended): verification is NOT a pure replay-and-compare: it calls
`analyser_sequence`, which re-archives the fresh analysis under the same
name. The archived name and sequence are preserved, but the archived root
signature is REPLACED by the recomputed one (first conjunct); only in the
INTACT case does the replacement equal the stored signature, so that the
(name, sequence, signature) triple is unchanged (second conjunct). -/
theorem c5_archive_reecrite :
    (∀ (etat : EtatVerite) (nom : String) (entry : AnalyseResultat),
      dict_get? nom etat.archives_analyses = some entry →
      entry.sequence_originale ≠ [] →
      ∃ etat3 v, verifier_integrite etat nom = .ok (etat3, .verdict v) ∧
        dict_get? nom etat3.archives_analyses = some
          ⟨nom, entry.sequence_originale, construire_pyramide entry.sequence_originale,
            calculer_signatures (construire_pyramide entry.sequence_originale) nom⟩) ∧
    (∀ (etat : EtatVerite) (nom : String) (entry : AnalyseResultat) (etat3 : EtatVerite)
        (v : VerificationResultat),
      dict_get? nom etat.archives_analyses = some entry →
      entry.sequence_originale ≠ [] →
      verifier_integrite etat nom = .ok (etat3, .verdict v) →
      v.statut = "INTÈGRE" →
      (calculer_signatures (construire_pyramide entry.sequence_originale)
        nom).signature_racine = entry.signatures.signature_racine) := by
  constructor
  · intro etat nom entry hget hne
    rw [verifier_integrite_eq etat nom entry hget hne]
    exact ⟨_, _, rfl, dict_get_insert nom _ etat.archives_analyses⟩
  · intro etat nom entry etat3 v hget hne hrun hstat
    rw [verifier_integrite_eq etat nom entry hget hne] at hrun
    simp only [Except.ok.injEq, Prod.mk.injEq, VerifResultat.verdict.injEq] at hrun
    rw [← hrun.2] at hstat
    dsimp only at hstat
    by_cases h : entry.signatures.signature_racine =
        (calculer_signatures (construire_pyramide entry.sequence_originale)
          nom).signature_racine
    · exact h.symm
    · rw [if_neg (fun hh => h (beq_iff_eq.mp hh))] at hstat
      exact absurd hstat (by decide)

/-- C5 (counterexample): archive [1, 2] under the name A, tamper the
archived root signature to "X", and verify: the outcome is CORRUPTED, and
the stored signature after verification is no longer "X" — the verifier
overwrote the archived entry with its replay. -/
theorem c5_contre_exemple :
    ∃ etat3 v, verifier_integrite etat_c5_tampere "A" = .ok (etat3, .verdict v) ∧
      v.statut = "CORROMPU" ∧
      (dict_get? "A" etat_c5_tampere.archives_analyses).map
        (fun r => r.signatures.signature_racine) = some "X" ∧
      (dict_get? "A" etat3.archives_analyses).map
        (fun r => r.signatures.signature_racine) ≠ some "X" := by
  have hget : dict_get? "A" etat_c5_tampere.archives_analyses = some entree_c5 := rfl
  have hv := verifier_integrite_eq etat_c5_tampere "A" entree_c5 hget (by decide)
  have hXne : ¬ (entree_c5.signatures.signature_racine =
      (calculer_signatures (construire_pyramide entree_c5.sequence_originale)
        "A").signature_racine) := by
    rw [show entree_c5.signatures.signature_racine = "X" from rfl]
    intro hh
    exact signature_racine_ne_X _ _ hh.symm
  refine ⟨_, _, hv, ?_, ?_, ?_⟩
  · show (if (entree_c5.signatures.signature_racine ==
        (calculer_signatures (construire_pyramide entree_c5.sequence_originale)
          "A").signature_racine) then "INTÈGRE" else "CORROMPU") = "CORROMPU"
    exact if_neg (fun hh => hXne (beq_iff_eq.mp hh))
  · rw [hget]
    rfl
  · rw [dict_get_insert "A" _ etat_c5_tampere.archives_analyses]
    intro hh
    injection hh with hh2
    exact signature_racine_ne_X _ _ hh2

end AlgoMedecine
